import Mathlib

/-!
Shallow embedding of the ClaudePersonalAssistant repository
(src/main.py and src/calendar_integration.py) for checking the
natural-language specification against the code.

Python strings are Lean `String`s, Python `None`-able values are `Option`s,
machine side effects (SMTP transport, OAuth refresh, file writes) are made
explicit as parameters and returned traces, and a Python exception that
escapes a function is an `Except.error` result.
-/

/-! ## Small shared helpers -/

/-- A single-quote character, kept out of string literals. -/
def quoteS : String := String.mk [Char.ofNat 39]

/-- The space character. -/
def spaceChar : Char := Char.ofNat 32

/-- The comma character. -/
def commaChar : Char := Char.ofNat 44

/-- The colon character. -/
def colonChar : Char := Char.ofNat 58

/-- Decimal digit character for a value below ten. -/
def digitChar (n : Nat) : Char := Char.ofNat (48 + n)

/-- Numeric value of a decimal digit character, if it is one. -/
def parseDigit (c : Char) : Option Nat :=
  if 48 ≤ c.toNat ∧ c.toNat ≤ 57 then some (c.toNat - 48) else none

/-- Two decimal digit characters to their two-digit value. -/
def parse2 (c1 c2 : Char) : Option Nat := do
  let a ← parseDigit c1
  let b ← parseDigit c2
  pure (10 * a + b)

/-- Four decimal digit characters to their four-digit value. -/
def parse4 (c1 c2 c3 c4 : Char) : Option Nat := do
  let a ← parseDigit c1
  let b ← parseDigit c2
  let c ← parseDigit c3
  let d ← parseDigit c4
  pure (1000 * a + 100 * b + 10 * c + d)

/-- Zero-padded two-digit decimal rendering, as in strftime fields. -/
def two (n : Nat) : List Char := [digitChar (n / 10), digitChar (n % 10)]

/-- Zero-padded four-digit decimal rendering, as in an ISO year. -/
def four (n : Nat) : List Char :=
  [digitChar (n / 1000), digitChar (n / 100 % 10), digitChar (n / 10 % 10), digitChar (n % 10)]

/-! ## Model of src/main.py: the send_email tool and result reporting -/

/-- The environment variables read by `send_email` in src/main.py.
`none` models an unset variable, as returned by `os.getenv`. -/
structure SmtpEnv where
  SMTP_HOST : Option String
  SMTP_PORT : Option String
  SMTP_USER : Option String
  SMTP_PASSWORD : Option String
  FROM_EMAIL : Option String
deriving DecidableEq, Repr

/-- The arguments of the send_email tool: to, subject, body_html.
The source field name is `to`, a reserved word in Lean, so it is `toAddr`
here. -/
structure EmailArgs where
  toAddr : String
  subject : String
  body_html : String
deriving DecidableEq, Repr

/-- The tool result dictionary returned by `send_email`: a list of text
blocks plus the error flag (absent in Python means false). -/
structure ToolResult where
  content : List String
  is_error : Bool
deriving DecidableEq, Repr

/-- A Python exception escaping a function of src/main.py. -/
inductive PyMainError where
  | valueError (msg : String)
deriving DecidableEq, Repr

/-- Python truthiness of an optional string: `None` and the empty string
are falsy. -/
def pyTruthyStr : Option String → Bool
  | none => false
  | some v => !v.isEmpty

/-- Python `a or b` on an optional string with a fallback. -/
def pyOrStr (a : Option String) (b : String) : String :=
  match a with
  | some v => if v.isEmpty then b else v
  | none => b

/-- Model of Python `int(s)` on a string: optional surrounding spaces, an
optional sign, then a nonempty run of decimal digits; anything else raises
`ValueError`, modelled as `none`. -/
def pythonInt (s : String) : Option Int :=
  let l := (((s.toList.dropWhile (fun c => c = spaceChar)).reverse.dropWhile
      (fun c => c = spaceChar)).reverse)
  match l with
  | '+' :: rest =>
      if rest ≠ [] ∧ rest.all (fun c => (parseDigit c).isSome) then
        some (Int.ofNat (rest.foldl (fun a c => a * 10 + (c.toNat - 48)) 0))
      else none
  | '-' :: rest =>
      if rest ≠ [] ∧ rest.all (fun c => (parseDigit c).isSome) then
        some (-(Int.ofNat (rest.foldl (fun a c => a * 10 + (c.toNat - 48)) 0)))
      else none
  | rest =>
      if rest ≠ [] ∧ rest.all (fun c => (parseDigit c).isSome) then
        some (Int.ofNat (rest.foldl (fun a c => a * 10 + (c.toNat - 48)) 0))
      else none

/-- The fixed error text returned when SMTP_HOST is unset or empty
(src/main.py lines 47-56). -/
def hostErrText : String :=
  "Error: SMTP_HOST is required. Set it to " ++ quoteS ++ "localhost" ++ quoteS ++
  " for Mailpit or " ++ quoteS ++ "smtp.gmail.com" ++ quoteS ++ " for Gmail."

/-- Model of `send_email` (src/main.py lines 38-90).

* `transport` models the SMTP interaction inside the `with` block:
  `none` means the send succeeds, `some m` means some smtplib call raises
  an exception whose string form is `m` (caught by the `except Exception`).
* The result carries the returned tool dictionary, the number of transport
  send attempts that were started, and whether TLS plus login were applied
  (the code applies them only when both SMTP_USER and SMTP_PASSWORD are
  nonempty).
* `Except.error` models an exception escaping `send_email` itself: the
  only such point is `int(os.getenv("SMTP_PORT", "1025"))`, which raises
  `ValueError` on a non-integer string before any other check runs. -/
def send_email (env : SmtpEnv) (args : EmailArgs) (transport : Option String) :
    Except PyMainError (ToolResult × Nat × Bool) :=
  let smtp_host := env.SMTP_HOST
  match pythonInt (env.SMTP_PORT.getD "1025") with
  | none =>
      .error (.valueError ("invalid literal for int() with base 10: " ++ quoteS ++
        env.SMTP_PORT.getD "1025" ++ quoteS))
  | some _smtp_port =>
    let smtp_user := env.SMTP_USER.getD ""
    let smtp_password := env.SMTP_PASSWORD.getD ""
    let _from_email :=
      pyOrStr env.FROM_EMAIL (if smtp_user.isEmpty then "assistant@localhost" else smtp_user)
    if !pyTruthyStr smtp_host then
      .ok (⟨[hostErrText], true⟩, 0, false)
    else
      let useAuth := !smtp_user.isEmpty && !smtp_password.isEmpty
      match transport with
      | some exnMsg =>
          .ok (⟨["Failed to send email: " ++ exnMsg], true⟩, 1, useAuth)
      | none =>
          .ok (⟨["Email sent successfully to " ++ args.toAddr ++ " with subject: " ++
            args.subject], false⟩, 1, useAuth)

/-- The terminal result message consumed by `run_assistant`
(src/main.py lines 175-183). Monetary cost and duration are modelled as
rationals; `total_cost_usd` is `none` when the SDK reports no cost. -/
structure ResultMessage where
  is_error : Bool
  duration_ms : ℚ
  total_cost_usd : Option ℚ
deriving DecidableEq

/-- Python truthiness of the optional cost: `None` and `0.0` are falsy. -/
def pyTruthyCost : Option ℚ → Bool
  | none => false
  | some c => decide (c ≠ 0)

/-- Model of Python fixed-point formatting `{:.nf}` of a rational. -/
def fmtFixed (q : ℚ) (n : Nat) : String :=
  let neg := decide (q < 0)
  let a : ℚ := if neg then -q else q
  let scaled : Nat := (Rat.floor (a * (10 : ℚ) ^ n + 1 / 2)).toNat
  let ip := scaled / 10 ^ n
  let fp := scaled % 10 ^ n
  let fpStr := toString fp
  let fpPadded := String.mk (List.replicate (n - fpStr.length) '0') ++ fpStr
  (if neg then "-" else "") ++ toString ip ++ "." ++ fpPadded

/-- Model of the lines printed by `run_assistant` when the terminal
`ResultMessage` arrives (src/main.py lines 175-183): a status line, a
duration line, and — only when `total_cost_usd` is truthy — a cost line
formatted to four decimal places. -/
def render_result (m : ResultMessage) : List String :=
  [(if m.is_error then "Agent completed with error" else "Agent completed successfully"),
   "Duration: " ++ fmtFixed (m.duration_ms / 1000) 2 ++ "s"] ++
  (if pyTruthyCost m.total_cost_usd then
    ["Cost: $" ++ fmtFixed (m.total_cost_usd.getD 0) 4] else [])

/-! ## Model of src/calendar_integration.py: credential store -/

/-- The observable state of a stored `google.oauth2.credentials.Credentials`
object, as queried by `get_calendar_service`: whether an access token is
present, whether it is expired, and whether a refresh token is present.
The `valid` property of the library is derived: token present and not
expired. -/
structure GoogleCreds where
  hasToken : Bool
  expired : Bool
  hasRefreshToken : Bool
deriving DecidableEq, Repr

/-- The `valid` property of the google credentials object. -/
def GoogleCreds.valid (c : GoogleCreds) : Bool := c.hasToken && !c.expired

/-- A successful `creds.refresh(Request())`: the credential gains a fresh,
unexpired access token; the refresh token is kept. -/
def refreshedCreds (c : GoogleCreds) : GoogleCreds := ⟨true, false, c.hasRefreshToken⟩

/-- The credential produced by a completed interactive
`InstalledAppFlow.run_local_server` consent flow: fresh and unexpired. -/
def freshInteractiveCreds : GoogleCreds := ⟨true, false, true⟩

/-- File-system operations performed by the credential store. -/
inductive FileOp where
  | openWrite (path : String)
  | writeData (path : String)
  | rename (src dst : String)
deriving DecidableEq, Repr

/-- How the returned credential was acquired. -/
inductive ObtainStep where
  | reused
  | refreshed
  | interactive
deriving DecidableEq, Repr

/-- A Python exception escaping `get_calendar_service`:
the explicit `FileNotFoundError` of lines 45-49, or the
`google.auth.exceptions.RefreshError` raised by a failing
`creds.refresh(Request())` on line 43 (not caught there). -/
inductive CalPyError where
  | fileNotFound (msg : String)
  | refreshError
deriving DecidableEq, Repr

/-- Path `CREDENTIALS_FILE = os.path.join(SCRIPT_DIR, "credentials.json")`. -/
def CREDENTIALS_FILE (scriptDir : String) : String := scriptDir ++ "/credentials.json"

/-- Path `TOKEN_FILE = os.path.join(SCRIPT_DIR, "token.json")`. -/
def TOKEN_FILE (scriptDir : String) : String := scriptDir ++ "/token.json"

/-- The authorization branch of lines 44-52: if `credentials.json` is
absent, raise `FileNotFoundError` naming the artifact and its expected
location; otherwise run the interactive consent flow and obtain a fresh
credential. -/
def newAuthFlow (scriptDir : String) (credentialsFileOnDisk : Bool) :
    Except CalPyError (GoogleCreds × ObtainStep) :=
  if credentialsFileOnDisk then
    .ok (freshInteractiveCreds, .interactive)
  else
    .error (.fileNotFound ("credentials.json not found at " ++ CREDENTIALS_FILE scriptDir ++
      ". Please set up Google Calendar API credentials. " ++
      "See calendar_integration.py for instructions."))

/-- Lines 54-56: after a refresh or an interactive flow, the new credential
is written to `TOKEN_FILE` by `open(TOKEN_FILE, "w")` followed by one
`token.write(creds.to_json())` — a direct in-place overwrite, recorded as
an explicit trace of file operations. -/
def persistAfter (scriptDir : String) (r : Except CalPyError (GoogleCreds × ObtainStep)) :
    Except CalPyError (GoogleCreds × ObtainStep × List FileOp) :=
  match r with
  | .error e => .error e
  | .ok (c, s) =>
      .ok (c, s, [FileOp.openWrite (TOKEN_FILE scriptDir), FileOp.writeData (TOKEN_FILE scriptDir)])

/-- Model of `get_calendar_service` (src/calendar_integration.py lines
32-58), up to the final `build(...)` call, which only wraps the acquired
credential.

* `stored` is the credential loaded from `TOKEN_FILE`, `none` when the
  token file does not exist.
* `credentialsFileOnDisk` is `os.path.exists(CREDENTIALS_FILE)`.
* `refreshSucceeds` is whether `creds.refresh(Request())` succeeds; when
  it fails the library raises and nothing in this function catches it.
* On success the result carries the credential handed to `build`, how it
  was acquired, and the trace of file operations performed. -/
def get_calendar_service (scriptDir : String) (stored : Option GoogleCreds)
    (credentialsFileOnDisk : Bool) (refreshSucceeds : Bool) :
    Except CalPyError (GoogleCreds × ObtainStep × List FileOp) :=
  match stored with
  | some creds =>
      if creds.valid then
        .ok (creds, .reused, [])
      else
        persistAfter scriptDir
          (if creds.expired && creds.hasRefreshToken then
            (if refreshSucceeds then .ok (refreshedCreds creds, .refreshed)
             else .error .refreshError)
           else newAuthFlow scriptDir credentialsFileOnDisk)
  | none =>
      persistAfter scriptDir (newAuthFlow scriptDir credentialsFileOnDisk)

/-- Modelled from the spec: "persist the new credential atomically
(write-then-rename or equivalent)". The repository source contains no such
mechanism; this predicate states what an atomic write-then-rename trace
would have to contain, to be compared with the trace the code produces. -/
def atomicPersist (ops : List FileOp) (path : String) : Prop :=
  ∃ tmp, FileOp.rename tmp path ∈ ops

/-- Number of data writes a trace performs on a given path. -/
def writeCount (ops : List FileOp) (p : String) : Nat :=
  ops.countP (fun op => match op with
    | FileOp.writeData q => q == p
    | _ => false)

/-! ## Model of src/calendar_integration.py: event fetch and normalization -/

/-- The `start` or `end` object of a remote calendar record: an optional
precise `dateTime` field and an optional date-only `date` field. -/
structure RawTimeObj where
  dateTime : Option String
  date : Option String
deriving DecidableEq, Repr

/-- A remote calendar record as consumed by the normalization loop
(lines 91-105): mandatory `start` and `end` objects (accessed with
`event["start"]` / `event["end"]`), and optional `summary`, `location`,
`description`, `hangoutLink` keys (accessed with `.get`). The source field
name `end` is a reserved word in Lean, so it is `end_` here. -/
structure RawEvent where
  start : RawTimeObj
  end_ : RawTimeObj
  summary : Option String
  location : Option String
  description : Option String
  hangoutLink : Option String
deriving DecidableEq, Repr

/-- The normalized event dictionary appended to `formatted_events`
(lines 98-105). -/
structure NormalizedEvent where
  summary : String
  start : Option String
  end_ : Option String
  location : String
  description : String
  hangout_link : String
deriving DecidableEq, Repr

/-- The normalization of one remote record (lines 92-105): timestamp field
preferred over date-only field for start and end, `summary` defaulting to
"No title", the optional string fields defaulting to the empty string. -/
def normalizeEvent (event : RawEvent) : NormalizedEvent :=
  { summary := event.summary.getD "No title"
    start := match event.start.dateTime with
             | some t => some t
             | none => event.start.date
    end_ := match event.end_.dateTime with
            | some t => some t
            | none => event.end_.date
    location := event.location.getD ""
    description := event.description.getD ""
    hangout_link := event.hangoutLink.getD "" }

/-- An exception raised inside the `try` block of `get_upcoming_events`,
one per `except` arm of lines 109-115: `googleapiclient.errors.HttpError`,
`FileNotFoundError` (from `get_calendar_service`), or any other
`Exception`. -/
inductive CalException where
  | httpError (msg : String)
  | fileNotFound (msg : String)
  | other (msg : String)
deriving DecidableEq, Repr

/-- The diagnostic line printed by the `except` arm that catches the given
exception (lines 109-115). -/
def logMessage : CalException → String
  | .httpError m => "Google Calendar API error: " ++ m
  | .fileNotFound m => "Calendar setup required: " ++ m
  | .other m => "Error fetching calendar events: " ++ m

/-- The body of the `try` block of `get_upcoming_events` (lines 67-107):
acquire the service and issue the windowed list request — both folded into
the `remote` parameter, a function of the day window that either returns
the raw records or raises — then normalize each record. -/
def get_upcoming_events_body (days : Int)
    (remote : Int → Except CalException (List RawEvent)) :
    Except CalException (List NormalizedEvent) :=
  match remote days with
  | .ok events => .ok (events.map normalizeEvent)
  | .error e => .error e

/-- Model of `get_upcoming_events` (src/calendar_integration.py lines
61-115): run the body, and catch every raised exception in one of the
three `except` arms, each of which prints one diagnostic line and returns
the empty list. The result is the returned list together with the list of
printed diagnostic lines; the total return type records that no exception
escapes. -/
def get_upcoming_events (days : Int)
    (remote : Int → Except CalException (List RawEvent)) :
    List NormalizedEvent × List String :=
  match get_upcoming_events_body days remote with
  | .ok events => (events, [])
  | .error e => ([], [logMessage e])

/-! ## Model of src/calendar_integration.py: the formatter and the
Python datetime operations it uses -/

/-- The fields of a Python `datetime` value relevant here. -/
structure PyDateTime where
  year : Nat
  month : Nat
  day : Nat
  hour : Nat
  minute : Nat
  second : Nat
deriving DecidableEq, Repr

/-- Field-range validation performed by `datetime.fromisoformat`; the
day-in-month bound is simplified to 31 (month lengths and leap years do
not matter to any claim here). -/
def mkValidDateTime (y mo d h mi s : Nat) : Option PyDateTime :=
  if 1 ≤ mo ∧ mo ≤ 12 ∧ 1 ≤ d ∧ d ≤ 31 ∧ h ≤ 23 ∧ mi ≤ 59 ∧ s ≤ 59 then
    some ⟨y, mo, d, h, mi, s⟩
  else none

/-- Whether a character list is a well-formed UTC-offset suffix of an ISO
timestamp: empty, or a sign followed by HH:MM. -/
def offsetOk (l : List Char) : Bool :=
  match l with
  | [] => true
  | s :: a :: b :: c :: d :: e :: [] =>
      (s = '+' || s = '-') && (parseDigit a).isSome && (parseDigit b).isSome &&
      (c = colonChar) && (parseDigit d).isSome && (parseDigit e).isSome
  | _ => false

/-- Model of `datetime.fromisoformat` on the shapes this repository feeds
it: a date `YYYY-MM-DD`, or a timestamp `YYYY-MM-DDTHH:MM:SS` with an
optional `+HH:MM` / `-HH:MM` offset (a trailing `Z` has already been
rewritten by the caller). A malformed string raises `ValueError`,
modelled as `none`; the offset is validated and then discarded, since
`strftime` does not depend on it. -/
def fromisoformat (l : List Char) : Option PyDateTime :=
  match l with
  | y1 :: y2 :: y3 :: y4 :: '-' :: mo1 :: mo2 :: '-' :: d1 :: d2 :: rest =>
      (match parse4 y1 y2 y3 y4, parse2 mo1 mo2, parse2 d1 d2 with
       | some y, some mo, some d =>
           (match rest with
            | [] => mkValidDateTime y mo d 0 0 0
            | 'T' :: h1 :: h2 :: c1 :: mi1 :: mi2 :: c2 :: s1 :: s2 :: tzrest =>
                if c1 = colonChar ∧ c2 = colonChar then
                  (match parse2 h1 h2, parse2 mi1 mi2, parse2 s1 s2 with
                   | some h, some mi, some s =>
                       if offsetOk tzrest then mkValidDateTime y mo d h mi s else none
                   | _, _, _ => none)
                else none
            | _ => none)
       | _, _, _ => none)
  | _ => none

/-- Model of `start.replace("Z", "+00:00")`: every `Z` character is
replaced by the five-character UTC offset. -/
def replaceZ (l : List Char) : List Char :=
  l.flatMap (fun c => if c = 'Z' then ['+', '0', '0', colonChar, '0', '0'] else [c])

/-- The three-letter `%a` weekday names, Sunday first. -/
def weekdayNames : List (List Char) :=
  [['S','u','n'], ['M','o','n'], ['T','u','e'], ['W','e','d'],
   ['T','h','u'], ['F','r','i'], ['S','a','t']]

/-- The three-letter `%b` month names, January first. -/
def monthNames : List (List Char) :=
  [['J','a','n'], ['F','e','b'], ['M','a','r'], ['A','p','r'],
   ['M','a','y'], ['J','u','n'], ['J','u','l'], ['A','u','g'],
   ['S','e','p'], ['O','c','t'], ['N','o','v'], ['D','e','c']]

/-- Weekday of a date, 0 = Sunday, by Zeller's congruence; feeds `%a`. -/
def zellerWeekday (y m d : Nat) : Nat :=
  let ym := if m ≤ 2 then y - 1 else y
  let mm := if m ≤ 2 then m + 12 else m
  let k := ym % 100
  let j := ym / 100
  (d + (13 * (mm + 1)) / 5 + k + k / 4 + j / 4 + 5 * j + 6) % 7

/-- The `%a` field: three-letter weekday abbreviation. -/
def weekdayAbbrev (w : Nat) : List Char := weekdayNames.getD (w % 7) ['?','?','?']

/-- The `%b` field: three-letter month abbreviation for months 1-12. -/
def monthAbbrev (m : Nat) : List Char := monthNames.getD (m - 1) ['?','?','?']

/-- The `%I` field: hour on the 12-hour clock, 12 for 0 and 12. -/
def hour12 (h : Nat) : Nat := if h % 12 = 0 then 12 else h % 12

/-- The `%p` field: AM for hours 0-11, PM for hours 12-23. -/
def meridiem (h : Nat) : List Char := if h < 12 then ['A','M'] else ['P','M']

/-- Model of `dt.strftime("%a %b %d, %I:%M %p")` (line 128). -/
def strftimeTimestamp (dt : PyDateTime) : List Char :=
  weekdayAbbrev (zellerWeekday dt.year dt.month dt.day) ++ spaceChar ::
  (monthAbbrev dt.month ++ spaceChar ::
  (two dt.day ++ commaChar :: spaceChar ::
  (two (hour12 dt.hour) ++ colonChar ::
  (two dt.minute ++ spaceChar :: meridiem dt.hour))))

/-- Model of `dt.strftime("%a %b %d")` (line 132). -/
def strftimeDateOnly (dt : PyDateTime) : List Char :=
  weekdayAbbrev (zellerWeekday dt.year dt.month dt.day) ++ spaceChar ::
  (monthAbbrev dt.month ++ spaceChar :: two dt.day)

/-- A Python exception escaping `format_events_for_prompt`: a
`TypeError` from `"T" in None` when a record has no start at all, or a
`ValueError` from `datetime.fromisoformat` on a malformed string. Nothing
in the function catches either. -/
inductive FmtError where
  | typeError
  | valueError
deriving DecidableEq, Repr

/-- The `date_str` computation of lines 124-134, applied to the raw
characters of a record start: the timestamp branch is taken when the
string contains `T`, after rewriting a trailing-`Z` form; the date-only
branch parses the plain date and appends the all-day marker. -/
def renderDateStr (start : List Char) : Except FmtError (List Char) :=
  if 'T' ∈ start then
    match fromisoformat (replaceZ start) with
    | some dt => .ok (strftimeTimestamp dt)
    | none => .error .valueError
  else
    match fromisoformat start with
    | some dt => .ok (strftimeDateOnly dt ++ (spaceChar :: ('(' :: "all day)".toList)))
    | none => .error .valueError

/-- One line of the formatter output (lines 136-139): the date string,
the summary, and the location appended only when it is nonempty. -/
def formatLine (event : NormalizedEvent) : Except FmtError String :=
  match event.start with
  | none => .error .typeError
  | some start =>
      match renderDateStr start.toList with
      | .error e => .error e
      | .ok ds =>
          .ok ("- " ++ String.mk ds ++ ": " ++ event.summary ++
            (if !event.location.isEmpty then " @ " ++ event.location else ""))

/-- Model of `format_events_for_prompt` (src/calendar_integration.py lines
118-141): the fixed sentence on an empty list, otherwise the per-event
lines joined with newlines. The function itself performs no side effects;
its only failure modes are the uncaught datetime exceptions recorded in
`FmtError`. -/
def format_events_for_prompt (events : List NormalizedEvent) : Except FmtError String :=
  if events.isEmpty then
    .ok "No calendar events found for the next 5 days (or calendar not configured)."
  else
    match events.mapM formatLine with
    | .ok lines => .ok (String.intercalate "\n" lines)
    | .error e => .error e

/-! ## Model of the round-trip re-parse used by the specification -/

/-- The ISO rendering `YYYY-MM-DDTHH:MM:SS` of a datetime value, the shape
in which the remote service delivers a precise timestamp. -/
def isoOfDateTime (dt : PyDateTime) : List Char :=
  four dt.year ++ '-' :: (two dt.month ++ '-' :: (two dt.day ++ 'T' ::
  (two dt.hour ++ colonChar :: (two dt.minute ++ colonChar :: two dt.second))))

/-- The fields recovered by re-parsing a rendered date string with
`datetime.strptime(s, "%a %b %d, %I:%M %p")`. -/
structure StrptimeResult where
  weekday : Nat
  month : Nat
  day : Nat
  hour : Nat
  minute : Nat
deriving DecidableEq, Repr

/-- Consume a three-letter abbreviation from the given table followed by a
space, returning its index and the rest. -/
def parseAbbrev (names : List (List Char)) : List Char → Option (Nat × List Char)
  | a :: b :: c :: s :: rest =>
      if s = spaceChar then
        (names.findIdx? (fun n => n == [a, b, c])).map (fun i => (i, rest))
      else none
  | _ => none

/-- Consume the `%d, ` day token: two digits, comma, space. -/
def parseDayTok : List Char → Option (Nat × List Char)
  | d1 :: d2 :: c1 :: c2 :: rest =>
      if c1 = commaChar ∧ c2 = spaceChar then (parse2 d1 d2).map (fun v => (v, rest))
      else none
  | _ => none

/-- Consume the `%I:` hour token: two digits and a colon. -/
def parseHourTok : List Char → Option (Nat × List Char)
  | d1 :: d2 :: c1 :: rest =>
      if c1 = colonChar then (parse2 d1 d2).map (fun v => (v, rest)) else none
  | _ => none

/-- Consume the `%M ` minute token: two digits and a space. -/
def parseMinTok : List Char → Option (Nat × List Char)
  | d1 :: d2 :: c1 :: rest =>
      if c1 = spaceChar then (parse2 d1 d2).map (fun v => (v, rest)) else none
  | _ => none

/-- The `%p` token, which must end the string: false for AM, true for PM. -/
def parseMeridiem : List Char → Option Bool
  | ['A', 'M'] => some false
  | ['P', 'M'] => some true
  | _ => none

/-- Conversion of a 12-hour clock reading back to the 24-hour clock, as
`strptime` combines `%I` and `%p`. -/
def hourFrom12 (h12 : Nat) (pm : Bool) : Nat :=
  if pm then (if h12 = 12 then 12 else h12 + 12)
  else (if h12 = 12 then 0 else h12)

/-- Model of `datetime.strptime(s, "%a %b %d, %I:%M %p")` on the strings
produced by the formatter: each fixed-width field is consumed in order and
the year-free fields are returned. -/
def strptimeDateParse (l : List Char) : Option StrptimeResult := do
  let (w, r1) ← parseAbbrev weekdayNames l
  let (mIdx, r2) ← parseAbbrev monthNames r1
  let (d, r3) ← parseDayTok r2
  let (h12v, r4) ← parseHourTok r3
  let (mi, r5) ← parseMinTok r4
  let pm ← parseMeridiem r5
  pure ⟨w, mIdx + 1, d, hourFrom12 h12v pm, mi⟩

/-! ## Claim theorems -/

/-- C8: `format_events_for_prompt` applied to an empty record sequence
returns the one exact fixed "no events" sentence; the function is a plain
Lean function of its argument, hence pure, so the result is identical on
every call. -/
theorem C8_empty_fixed_sentence :
    format_events_for_prompt [] =
      .ok "No calendar events found for the next 5 days (or calendar not configured)." := rfl

/-- C9: when SMTP_PORT is set to a non-integer string, `send_email` raises
an uncaught `ValueError` from `int()` before any other check runs — the
result is the raised error regardless of SMTP_HOST (even when the host is
unset and the host-presence check would otherwise report it), and no
error-flagged ToolResult is returned. -/
theorem C9_port_valueerror (s : String) (hs : pythonInt s = none)
    (host user pw fromAddr : Option String) (args : EmailArgs) (transport : Option String) :
    send_email ⟨host, some s, user, pw, fromAddr⟩ args transport =
      .error (.valueError ("invalid literal for int() with base 10: " ++ quoteS ++ s ++ quoteS)) := by
  simp [send_email, hs]

/-- Witness for C9 at a concrete non-integer port string. -/
theorem C9_port_valueerror_witness :
    send_email ⟨none, some "abc", none, none, none⟩ ⟨"a@b", "hi", "<p>x</p>"⟩ none =
      .error (.valueError ("invalid literal for int() with base 10: " ++ quoteS ++ "abc" ++ quoteS)) :=
  C9_port_valueerror "abc" rfl none none none none ⟨"a@b", "hi", "<p>x</p>"⟩ none

/-- C4 counterexample: the claim quantifies over every invocation with
SMTP_HOST unset, but with SMTP_PORT additionally set to a non-integer
string the tool raises a `ValueError` instead of returning the
error-flagged ToolResult — the `int()` call runs before the host check. -/
theorem C4_counterexample :
    send_email ⟨none, some "12x", none, none, none⟩ ⟨"r@x", "s", "b"⟩ none =
      .error (.valueError ("invalid literal for int() with base 10: " ++ quoteS ++ "12x" ++ quoteS)) := by
  rfl

/-- C4 (amended): when SMTP_HOST is unset and SMTP_PORT, when set, is a
valid integer literal, `send_email` returns a ToolResult with
`is_error = true` whose message names SMTP_HOST, makes no transport
attempt, and does not raise. -/
theorem C4_host_unset (env : SmtpEnv) (args : EmailArgs) (transport : Option String)
    (hhost : env.SMTP_HOST = none)
    (hport : (pythonInt (env.SMTP_PORT.getD "1025")).isSome = true) :
    send_email env args transport = .ok (⟨[hostErrText], true⟩, 0, false) ∧
    ∃ pre post, hostErrText = pre ++ "SMTP_HOST" ++ post := by
  obtain ⟨p, hp⟩ := Option.isSome_iff_exists.mp hport
  constructor
  · simp [send_email, hp, hhost, pyTruthyStr]
  · exact ⟨"Error: ",
      " is required. Set it to " ++ quoteS ++ "localhost" ++ quoteS ++
      " for Mailpit or " ++ quoteS ++ "smtp.gmail.com" ++ quoteS ++ " for Gmail.", by
        decide⟩

/-- Witness for C4 (amended) at a concrete environment. -/
theorem C4_host_unset_witness :
    send_email ⟨none, none, none, none, none⟩ ⟨"r@x", "s", "b"⟩ none =
      .ok (⟨[hostErrText], true⟩, 0, false) ∧
    ∃ pre post, hostErrText = pre ++ "SMTP_HOST" ++ post :=
  C4_host_unset ⟨none, none, none, none, none⟩ ⟨"r@x", "s", "b"⟩ none rfl rfl

/-- C3 counterexample: the claim quantifies over every invocation with a
configured SMTP host, but with SMTP_PORT additionally set to a non-integer
string the tool raises a `ValueError` before any send attempt, so no send
attempt is made and the failure is not converted into a ToolResult. -/
theorem C3_counterexample :
    send_email ⟨some "smtp.gmail.com", some "five87", none, none, none⟩ ⟨"r@x", "s", "b"⟩ none =
      .error (.valueError ("invalid literal for int() with base 10: " ++ quoteS ++ "five87" ++ quoteS)) := by
  rfl

/-- C3 (amended): for every invocation with a configured (nonempty) SMTP
host whose SMTP_PORT, when set, is a valid integer literal: exactly one
send attempt is made (no retry); TLS and authentication are applied if and
only if both SMTP_USER and SMTP_PASSWORD are nonempty; a transport
exception is caught and converted into an error-flagged ToolResult whose
content carries the exception message; and on success the content names
the recipient and the subject sent. The content list is never empty. -/
theorem C3_send_email_configured (env : SmtpEnv) (args : EmailArgs) (transport : Option String)
    (host : String) (hhost : env.SMTP_HOST = some host) (hne : host ≠ "")
    (hport : (pythonInt (env.SMTP_PORT.getD "1025")).isSome = true) :
    ∃ r auth, send_email env args transport = .ok (r, 1, auth) ∧
      auth = (!(env.SMTP_USER.getD "").isEmpty && !(env.SMTP_PASSWORD.getD "").isEmpty) ∧
      r.content ≠ [] ∧
      (∀ m, transport = some m →
        r.is_error = true ∧ r.content = ["Failed to send email: " ++ m]) ∧
      (transport = none →
        r.is_error = false ∧
        r.content = ["Email sent successfully to " ++ args.toAddr ++ " with subject: " ++
          args.subject]) := by
  obtain ⟨p, hp⟩ := Option.isSome_iff_exists.mp hport
  have hE : host.isEmpty = false := by
    simp [String.isEmpty, String.endPos_eq_zero, hne]
  have hB : (!pyTruthyStr env.SMTP_HOST) = false := by
    simp [pyTruthyStr, hhost, hE]
  cases transport with
  | some m =>
      refine ⟨⟨["Failed to send email: " ++ m], true⟩,
        (!(env.SMTP_USER.getD "").isEmpty && !(env.SMTP_PASSWORD.getD "").isEmpty),
        ?_, rfl, by simp, by simp, by simp⟩
      simp [send_email, hp, hB]
  | none =>
      refine ⟨⟨["Email sent successfully to " ++ args.toAddr ++ " with subject: " ++
        args.subject], false⟩,
        (!(env.SMTP_USER.getD "").isEmpty && !(env.SMTP_PASSWORD.getD "").isEmpty),
        ?_, rfl, by simp, by simp, by simp⟩
      simp [send_email, hp, hB]

/-- Witness for C3 (amended) at a concrete environment: unauthenticated
local relay, successful send. -/
theorem C3_send_email_configured_witness :
    ∃ r auth,
      send_email ⟨some "localhost", none, none, none, none⟩ ⟨"a@b", "hi", "<p>x</p>"⟩ none =
        .ok (r, 1, auth) ∧
      auth = (!((none : Option String).getD "").isEmpty &&
              !((none : Option String).getD "").isEmpty) ∧
      r.content ≠ [] ∧
      (∀ m, (none : Option String) = some m →
        r.is_error = true ∧ r.content = ["Failed to send email: " ++ m]) ∧
      ((none : Option String) = none →
        r.is_error = false ∧
        r.content = ["Email sent successfully to " ++ "a@b" ++ " with subject: " ++ "hi"]) :=
  C3_send_email_configured ⟨some "localhost", none, none, none, none⟩ ⟨"a@b", "hi", "<p>x</p>"⟩
    none "localhost" rfl (by decide) rfl

/-- C2: for every day window and every failure mode raised inside the
fetch (transport/API error, missing-credential configuration error, or any
other exception), `get_upcoming_events` catches the failure, returns the
empty list, and prints one nonempty diagnostic line; the total return type
of the model records that no exception escapes to the caller. -/
theorem C2_fetch_failures_empty (days : Int)
    (remote : Int → Except CalException (List RawEvent))
    (e : CalException) (h : remote days = .error e) :
    get_upcoming_events days remote = ([], [logMessage e]) ∧ logMessage e ≠ "" := by
  constructor
  · simp [get_upcoming_events, get_upcoming_events_body, h]
  · cases e <;> intro hc <;>
      · have hl := congrArg String.length hc
        simp [logMessage, String.length_append] at hl
        exact absurd hl.1 (by decide)

/-- Witness for C2 at a concrete transport failure. -/
theorem C2_fetch_failures_empty_witness :
    get_upcoming_events 5 (fun _ => .error (.httpError "503")) =
      ([], [logMessage (.httpError "503")]) ∧ logMessage (.httpError "503") ≠ "" :=
  C2_fetch_failures_empty 5 (fun _ => .error (.httpError "503")) (.httpError "503") rfl

/-- C6: every remote record normalized by `get_upcoming_events` prefers
the precise `dateTime` field and falls back to the date-only field exactly
when the timestamp is absent (for start and end); a missing title becomes
"No title"; missing location, description and meeting link become the
empty string (the normalized fields are total strings, never absent); and
the records returned by a successful fetch are exactly the normalized
ones. -/
theorem C6_normalization (e : RawEvent) :
    (∀ t, e.start.dateTime = some t → (normalizeEvent e).start = some t) ∧
    (e.start.dateTime = none → (normalizeEvent e).start = e.start.date) ∧
    (∀ t, e.end_.dateTime = some t → (normalizeEvent e).end_ = some t) ∧
    (e.end_.dateTime = none → (normalizeEvent e).end_ = e.end_.date) ∧
    (e.summary = none → (normalizeEvent e).summary = "No title") ∧
    (e.location = none → (normalizeEvent e).location = "") ∧
    (e.description = none → (normalizeEvent e).description = "") ∧
    (e.hangoutLink = none → (normalizeEvent e).hangout_link = "") ∧
    (∀ days (remote : Int → Except CalException (List RawEvent)) es,
      remote days = .ok es → (get_upcoming_events days remote).1 = es.map normalizeEvent) := by
  refine ⟨?_, ?_, ?_, ?_, ?_, ?_, ?_, ?_, ?_⟩
  · intro t h; simp [normalizeEvent, h]
  · intro h; simp [normalizeEvent, h]
  · intro t h; simp [normalizeEvent, h]
  · intro h; simp [normalizeEvent, h]
  · intro h; simp [normalizeEvent, h]
  · intro h; simp [normalizeEvent, h]
  · intro h; simp [normalizeEvent, h]
  · intro h; simp [normalizeEvent, h]
  · intro days remote es h; simp [get_upcoming_events, get_upcoming_events_body, h]

/-- Witness for C6 at a concrete record with only a date-only start and
every optional field missing. -/
theorem C6_normalization_witness :
    (normalizeEvent ⟨⟨none, some "2025-01-03"⟩, ⟨none, none⟩, none, none, none, none⟩).start =
      (⟨⟨none, some "2025-01-03"⟩, ⟨none, none⟩, none, none, none, none⟩ : RawEvent).start.date ∧
    (normalizeEvent ⟨⟨none, some "2025-01-03"⟩, ⟨none, none⟩, none, none, none, none⟩).summary =
      "No title" ∧
    (normalizeEvent ⟨⟨none, some "2025-01-03"⟩, ⟨none, none⟩, none, none, none, none⟩).location =
      "" :=
  ⟨(C6_normalization _).2.1 rfl, (C6_normalization _).2.2.2.2.1 rfl,
   (C6_normalization _).2.2.2.2.2.1 rfl⟩

/-- C1 counterexample: the claim says a refresh failure falls through to
interactive reauthorization, but with a stored expired refreshable
credential and a failing refresh — and with credentials.json present, so
the interactive flow would have been available — `get_calendar_service`
raises the refresh error and performs no interactive flow and no write. -/
theorem C1_counterexample :
    get_calendar_service "/repo" (some ⟨true, true, true⟩) true false =
      .error CalPyError.refreshError := rfl

/-- C1 (amended): `get_calendar_service` yields, per credential state:
reuse of the stored credential unchanged (no write) when it is valid;
refresh-and-persist when it is expired with a refresh token and the
refresh succeeds; on refresh failure, the refresh error propagates to the
caller (there is no fall-through to interactive reauthorization);
interactive-authorization-and-persist when no usable credential exists and
credentials.json is present; a `FileNotFoundError` naming credentials.json
and its expected location when the file is absent; and no branch returns
an expired credential. -/
theorem C1_obtain_branches (scriptDir : String) (stored : Option GoogleCreds)
    (cfe refreshOk : Bool) :
    (∀ c, stored = some c → c.valid = true →
      get_calendar_service scriptDir stored cfe refreshOk = .ok (c, .reused, [])) ∧
    (∀ c, stored = some c → c.valid = false → c.expired = true → c.hasRefreshToken = true →
      refreshOk = true →
      get_calendar_service scriptDir stored cfe refreshOk =
        .ok (refreshedCreds c, .refreshed,
          [FileOp.openWrite (TOKEN_FILE scriptDir), FileOp.writeData (TOKEN_FILE scriptDir)])) ∧
    (∀ c, stored = some c → c.valid = false → c.expired = true → c.hasRefreshToken = true →
      refreshOk = false →
      get_calendar_service scriptDir stored cfe refreshOk = .error CalPyError.refreshError) ∧
    (∀ c, stored = some c → c.valid = false → (c.expired = false ∨ c.hasRefreshToken = false) →
      cfe = true →
      get_calendar_service scriptDir stored cfe refreshOk =
        .ok (freshInteractiveCreds, .interactive,
          [FileOp.openWrite (TOKEN_FILE scriptDir), FileOp.writeData (TOKEN_FILE scriptDir)])) ∧
    (stored = none → cfe = true →
      get_calendar_service scriptDir stored cfe refreshOk =
        .ok (freshInteractiveCreds, .interactive,
          [FileOp.openWrite (TOKEN_FILE scriptDir), FileOp.writeData (TOKEN_FILE scriptDir)])) ∧
    ((stored = none ∨ ∃ c, stored = some c ∧ c.valid = false ∧
        (c.expired = false ∨ c.hasRefreshToken = false)) → cfe = false →
      get_calendar_service scriptDir stored cfe refreshOk =
        .error (.fileNotFound ("credentials.json not found at " ++ CREDENTIALS_FILE scriptDir ++
          ". Please set up Google Calendar API credentials. " ++
          "See calendar_integration.py for instructions."))) ∧
    (∀ c step ops, get_calendar_service scriptDir stored cfe refreshOk = .ok (c, step, ops) →
      c.expired = false) := by
  refine ⟨?_, ?_, ?_, ?_, ?_, ?_, ?_⟩
  · intro c hs hv
    simp [get_calendar_service, hs, hv]
  · intro c hs hv hexp hrt hok
    simp [get_calendar_service, persistAfter, hs, hv, hexp, hrt, hok]
  · intro c hs hv hexp hrt hok
    simp [get_calendar_service, persistAfter, hs, hv, hexp, hrt, hok]
  · intro c hs hv hcond hcfe
    rcases hcond with h | h <;>
      simp [get_calendar_service, persistAfter, newAuthFlow, hs, hv, h, hcfe]
  · intro hs hcfe
    simp [get_calendar_service, persistAfter, newAuthFlow, hs, hcfe]
  · intro hcond hcfe
    rcases hcond with hs | ⟨c, hs, hv, hcase⟩
    · simp [get_calendar_service, persistAfter, newAuthFlow, hs, hcfe]
    · rcases hcase with h | h <;>
        simp [get_calendar_service, persistAfter, newAuthFlow, hs, hv, h, hcfe]
  · intro c step ops h
    rcases stored with _ | creds
    · by_cases hcfe : cfe <;>
        simp [get_calendar_service, persistAfter, newAuthFlow, hcfe] at h
      obtain ⟨hc, -, -⟩ := h
      subst hc
      rfl
    · by_cases hv : creds.valid
      · simp [get_calendar_service, hv] at h
        obtain ⟨hc, -, -⟩ := h
        subst hc
        have hv2 : (creds.hasToken && !creds.expired) = true := hv
        simp at hv2
        exact hv2.2
      · by_cases hbr : (creds.expired && creds.hasRefreshToken) = true
        · by_cases hok : refreshOk
          · simp [get_calendar_service, persistAfter, hv, hbr, hok] at h
            obtain ⟨hc, -, -⟩ := h
            subst hc
            rfl
          · simp [get_calendar_service, persistAfter, hv, hbr, hok] at h
        · by_cases hcfe : cfe <;>
            simp [get_calendar_service, persistAfter, newAuthFlow, hv, hbr, hcfe] at h
          obtain ⟨hc, -, -⟩ := h
          subst hc
          rfl

/-- Witness for C1 (amended): a valid stored credential is reused
unchanged with no write. -/
theorem C1_obtain_branches_witness :
    get_calendar_service "/proj" (some ⟨true, false, false⟩) true true =
      .ok (⟨true, false, false⟩, .reused, []) :=
  (C1_obtain_branches "/proj" (some ⟨true, false, false⟩) true true).1
    ⟨true, false, false⟩ rfl rfl

/-- C5 counterexample: an interactive acquisition persists the token by a
direct open-for-write plus write — the trace contains no rename, so the
persistence is not the atomic write-then-rename the claim requires. -/
theorem C5_counterexample :
    get_calendar_service "/repo/src" none true true =
      .ok (freshInteractiveCreds, .interactive,
        [FileOp.openWrite "/repo/src/token.json", FileOp.writeData "/repo/src/token.json"]) ∧
    ¬ atomicPersist
        [FileOp.openWrite "/repo/src/token.json", FileOp.writeData "/repo/src/token.json"]
        "/repo/src/token.json" := by
  constructor
  · rfl
  · rintro ⟨tmp, hmem⟩
    simp [List.mem_cons] at hmem

/-- C5 (amended): every acquisition that changed credential state persists
the new credential by a single direct overwrite of the token file — one
open-for-write and exactly one write per call, with no rename (so not
write-then-rename) — and a reused credential writes nothing. -/
theorem C5_persist_once (scriptDir : String) (stored : Option GoogleCreds)
    (cfe refreshOk : Bool) (c : GoogleCreds) (step : ObtainStep) (ops : List FileOp)
    (h : get_calendar_service scriptDir stored cfe refreshOk = .ok (c, step, ops)) :
    (step = .reused → ops = []) ∧
    (step ≠ .reused →
      ops = [FileOp.openWrite (TOKEN_FILE scriptDir), FileOp.writeData (TOKEN_FILE scriptDir)]) ∧
    writeCount ops (TOKEN_FILE scriptDir) = (if step = .reused then 0 else 1) ∧
    (∀ a b, FileOp.rename a b ∉ ops) := by
  have hsplit : (step = ObtainStep.reused ∧ ops = []) ∨
      (step ≠ ObtainStep.reused ∧
        ops = [FileOp.openWrite (TOKEN_FILE scriptDir),
               FileOp.writeData (TOKEN_FILE scriptDir)]) := by
    rcases stored with _ | creds
    · by_cases hcfe : cfe <;>
        simp [get_calendar_service, persistAfter, newAuthFlow, hcfe] at h
      obtain ⟨-, hstep, hops⟩ := h
      subst hstep
      subst hops
      exact Or.inr ⟨by simp, rfl⟩
    · by_cases hv : creds.valid
      · simp [get_calendar_service, hv] at h
        obtain ⟨-, hstep, hops⟩ := h
        subst hstep
        subst hops
        exact Or.inl ⟨rfl, rfl⟩
      · by_cases hbr : (creds.expired && creds.hasRefreshToken) = true
        · by_cases hok : refreshOk
          · simp [get_calendar_service, persistAfter, hv, hbr, hok] at h
            obtain ⟨-, hstep, hops⟩ := h
            subst hstep
            subst hops
            exact Or.inr ⟨by simp, rfl⟩
          · simp [get_calendar_service, persistAfter, hv, hbr, hok] at h
        · by_cases hcfe : cfe <;>
            simp [get_calendar_service, persistAfter, newAuthFlow, hv, hbr, hcfe] at h
          obtain ⟨-, hstep, hops⟩ := h
          subst hstep
          subst hops
          exact Or.inr ⟨by simp, rfl⟩
  rcases hsplit with ⟨hstep, hops⟩ | ⟨hstep, hops⟩
  · refine ⟨fun _ => hops, fun hne => absurd hstep hne, ?_, ?_⟩
    · simp [hops, hstep, writeCount]
    · intro a b
      simp [hops]
  · refine ⟨fun heq => absurd heq hstep, fun _ => hops, ?_, ?_⟩
    · simp [hops, hstep, writeCount, List.countP_cons]
    · intro a b
      simp [hops, List.mem_cons]

/-- Witness for C5 (amended) at a concrete interactive acquisition. -/
theorem C5_persist_once_witness :
    (ObtainStep.interactive = ObtainStep.reused →
      [FileOp.openWrite (TOKEN_FILE "/w"), FileOp.writeData (TOKEN_FILE "/w")] = []) ∧
    (ObtainStep.interactive ≠ ObtainStep.reused →
      [FileOp.openWrite (TOKEN_FILE "/w"), FileOp.writeData (TOKEN_FILE "/w")] =
        [FileOp.openWrite (TOKEN_FILE "/w"), FileOp.writeData (TOKEN_FILE "/w")]) ∧
    writeCount [FileOp.openWrite (TOKEN_FILE "/w"), FileOp.writeData (TOKEN_FILE "/w")]
        (TOKEN_FILE "/w") = (if ObtainStep.interactive = ObtainStep.reused then 0 else 1) ∧
    (∀ a b, FileOp.rename a b ∉
      [FileOp.openWrite (TOKEN_FILE "/w"), FileOp.writeData (TOKEN_FILE "/w")]) :=
  C5_persist_once "/w" none true true freshInteractiveCreds .interactive
    [FileOp.openWrite (TOKEN_FILE "/w"), FileOp.writeData (TOKEN_FILE "/w")] rfl

/-- C10: `run_assistant` omits the cost line entirely when the terminal
result message reports a cost of `None` or exactly zero, and prints the
cost figure formatted to four decimal places exactly when `total_cost_usd`
is truthy. -/
theorem C10_cost_line (m : ResultMessage) :
    ((m.total_cost_usd = none ∨ m.total_cost_usd = some 0) →
      render_result m =
        [(if m.is_error then "Agent completed with error" else "Agent completed successfully"),
         "Duration: " ++ fmtFixed (m.duration_ms / 1000) 2 ++ "s"]) ∧
    (∀ c, m.total_cost_usd = some c → c ≠ 0 →
      render_result m =
        [(if m.is_error then "Agent completed with error" else "Agent completed successfully"),
         "Duration: " ++ fmtFixed (m.duration_ms / 1000) 2 ++ "s",
         "Cost: $" ++ fmtFixed c 4]) := by
  constructor
  · rintro (h | h) <;> simp [render_result, pyTruthyCost, h]
  · intro c hc hne
    simp [render_result, pyTruthyCost, hc, hne]

/-- Witness for C10 at a costless and a costly terminal message. -/
theorem C10_cost_line_witness :
    render_result ⟨false, 2500, none⟩ =
      ["Agent completed successfully",
       "Duration: " ++ fmtFixed ((2500 : ℚ) / 1000) 2 ++ "s"] ∧
    render_result ⟨false, 2500, some 1⟩ =
      ["Agent completed successfully",
       "Duration: " ++ fmtFixed ((2500 : ℚ) / 1000) 2 ++ "s",
       "Cost: $" ++ fmtFixed 1 4] :=
  ⟨(C10_cost_line ⟨false, 2500, none⟩).1 (Or.inl rfl),
   (C10_cost_line ⟨false, 2500, some 1⟩).2 1 rfl one_ne_zero⟩

theorem parseDigit_digitChar (d : Nat) (h : d < 10) : parseDigit (digitChar d) = some d := by
  interval_cases d <;> rfl

theorem parse2_two (n : Nat) (h : n < 100) :
    parse2 (digitChar (n / 10)) (digitChar (n % 10)) = some n := by
  rw [parse2, parseDigit_digitChar (n / 10) (by omega),
    parseDigit_digitChar (n % 10) (by omega)]
  simp
  omega

theorem parse4_four (n : Nat) (h : n < 10000) :
    parse4 (digitChar (n / 1000)) (digitChar (n / 100 % 10)) (digitChar (n / 10 % 10))
      (digitChar (n % 10)) = some n := by
  rw [parse4, parseDigit_digitChar (n / 1000) (by omega),
    parseDigit_digitChar (n / 100 % 10) (by omega),
    parseDigit_digitChar (n / 10 % 10) (by omega),
    parseDigit_digitChar (n % 10) (by omega)]
  simp
  omega

theorem parseAbbrev_weekdayAbbrev (w : Nat) (rest : List Char) :
    parseAbbrev weekdayNames (weekdayAbbrev w ++ spaceChar :: rest) = some (w % 7, rest) := by
  have h7 : w % 7 < 7 := Nat.mod_lt _ (by omega)
  unfold weekdayAbbrev
  revert h7
  generalize w % 7 = k
  intro h7
  interval_cases k <;> rfl

theorem parseAbbrev_monthAbbrev (m : Nat) (h1 : 1 ≤ m) (h2 : m ≤ 12) (rest : List Char) :
    parseAbbrev monthNames (monthAbbrev m ++ spaceChar :: rest) = some (m - 1, rest) := by
  interval_cases m <;> rfl

theorem parseDayTok_two (d : Nat) (h : d < 100) (rest : List Char) :
    parseDayTok (two d ++ commaChar :: spaceChar :: rest) = some (d, rest) := by
  simp [two, parseDayTok, parse2_two d h]

theorem parseHourTok_two (n : Nat) (h : n < 100) (rest : List Char) :
    parseHourTok (two n ++ colonChar :: rest) = some (n, rest) := by
  simp [two, parseHourTok, parse2_two n h]

theorem parseMinTok_two (n : Nat) (h : n < 100) (rest : List Char) :
    parseMinTok (two n ++ spaceChar :: rest) = some (n, rest) := by
  simp [two, parseMinTok, parse2_two n h]

theorem parseMeridiem_meridiem (h : Nat) (hh : h < 24) :
    parseMeridiem (meridiem h) = some (decide (12 ≤ h)) := by
  interval_cases h <;> rfl

theorem hourFrom12_hour12 (h : Nat) (hh : h < 24) :
    hourFrom12 (hour12 h) (decide (12 ≤ h)) = h := by
  interval_cases h <;> rfl

theorem hour12_lt (h : Nat) : hour12 h < 100 := by
  unfold hour12
  split <;> omega

theorem strptime_strftime (dt : PyDateTime) (hmo1 : 1 ≤ dt.month) (hmo2 : dt.month ≤ 12)
    (hd : dt.day < 100) (hh : dt.hour < 24) (hmi : dt.minute < 100) :
    strptimeDateParse (strftimeTimestamp dt) =
      some ⟨zellerWeekday dt.year dt.month dt.day % 7, dt.month, dt.day, dt.hour, dt.minute⟩ := by
  simp [strptimeDateParse, strftimeTimestamp, parseAbbrev_weekdayAbbrev,
    parseAbbrev_monthAbbrev dt.month hmo1 hmo2, parseDayTok_two dt.day hd,
    parseHourTok_two _ (hour12_lt dt.hour), parseMinTok_two dt.minute hmi,
    parseMeridiem_meridiem dt.hour hh, hourFrom12_hour12 dt.hour hh]
  omega

theorem digitChar_ne_Z (k : Nat) (h : k < 10) : digitChar k ≠ 'Z' := by
  interval_cases k <;> decide

theorem replaceZ_eq_self : ∀ l : List Char, (∀ c ∈ l, c ≠ 'Z') → replaceZ l = l
  | [], _ => rfl
  | c :: t, h => by
      have hc : c ≠ 'Z' := h c (List.mem_cons_self c t)
      have ht := replaceZ_eq_self t (fun x hx => h x (List.mem_cons_of_mem c hx))
      simp [replaceZ, List.flatMap_cons, hc]
      simpa [replaceZ] using ht

theorem noZ_iso (dt : PyDateTime) (hy : dt.year < 10000)
    (hmo : dt.month ≤ 12) (hd : dt.day ≤ 31) (hh : dt.hour ≤ 23)
    (hmi : dt.minute ≤ 59) (hs : dt.second ≤ 59) :
    ∀ c ∈ isoOfDateTime dt, c ≠ 'Z' := by
  obtain ⟨y, mo, d, h, mi, s⟩ := dt
  simp only [isoOfDateTime, four, two, List.cons_append, List.nil_append] at *
  intro c hc
  fin_cases hc <;>
    first
      | exact digitChar_ne_Z _ (by omega)
      | decide

theorem T_mem_iso (dt : PyDateTime) : 'T' ∈ isoOfDateTime dt := by
  obtain ⟨y, mo, d, h, mi, s⟩ := dt
  simp [isoOfDateTime, four, two]

theorem fromisoformat_iso (dt : PyDateTime) (hy : dt.year < 10000)
    (hmo1 : 1 ≤ dt.month) (hmo2 : dt.month ≤ 12) (hd1 : 1 ≤ dt.day) (hd2 : dt.day ≤ 31)
    (hh : dt.hour ≤ 23) (hmi : dt.minute ≤ 59) (hs : dt.second ≤ 59) :
    fromisoformat (isoOfDateTime dt) = some dt := by
  obtain ⟨y, mo, d, h, mi, s⟩ := dt
  simp only at hy hmo1 hmo2 hd1 hd2 hh hmi hs
  simp only [isoOfDateTime, four, two, List.cons_append, List.nil_append]
  simp only [fromisoformat]
  rw [parse4_four y hy, parse2_two mo (by omega), parse2_two d (by omega)]
  simp only
  rw [parse2_two h (by omega), parse2_two mi (by omega), parse2_two s (by omega)]
  simp [offsetOk, mkValidDateTime, hmo1, hmo2, hd1, hd2, hh, hmi, hs]

/-- C7: for every record carrying a full timestamp start, formatting it
with `format_events_for_prompt` renders the date string
`%a %b %d, %I:%M %p`, and re-parsing that rendered date string with the
same format recovers the calendar day (month and day of month) and the
hour and minute of the original timestamp. -/
theorem C7_roundtrip (dt : PyDateTime) (hy : dt.year < 10000)
    (hmo1 : 1 ≤ dt.month) (hmo2 : dt.month ≤ 12) (hd1 : 1 ≤ dt.day) (hd2 : dt.day ≤ 31)
    (hh : dt.hour ≤ 23) (hmi : dt.minute ≤ 59) (hs : dt.second ≤ 59) :
    ∃ ds, renderDateStr (isoOfDateTime dt) = .ok ds ∧
      strptimeDateParse ds =
        some ⟨zellerWeekday dt.year dt.month dt.day % 7, dt.month, dt.day, dt.hour, dt.minute⟩ ∧
      (∀ summary_, format_events_for_prompt
          [⟨summary_, some (String.mk (isoOfDateTime dt)), none, "", "", ""⟩] =
        .ok ("- " ++ String.mk ds ++ ": " ++ summary_)) := by
  have hT : 'T' ∈ isoOfDateTime dt := T_mem_iso dt
  have hZ : replaceZ (isoOfDateTime dt) = isoOfDateTime dt :=
    replaceZ_eq_self _ (noZ_iso dt hy hmo2 hd2 hh hmi hs)
  have hiso : fromisoformat (isoOfDateTime dt) = some dt :=
    fromisoformat_iso dt hy hmo1 hmo2 hd1 hd2 hh hmi hs
  have hrender : renderDateStr (isoOfDateTime dt) = .ok (strftimeTimestamp dt) := by
    simp [renderDateStr, hT, hZ, hiso]
  refine ⟨strftimeTimestamp dt, hrender, ?_, ?_⟩
  · exact strptime_strftime dt hmo1 hmo2 (by omega) (by omega) (by omega)
  · intro summary_
    have hline : formatLine ⟨summary_, some (String.mk (isoOfDateTime dt)), none, "", "", ""⟩ =
        .ok ("- " ++ String.mk (strftimeTimestamp dt) ++ ": " ++ summary_) := by
      simp [formatLine]
      rw [hrender]
      simp only [Except.ok.injEq]
      rw [show (if "".isEmpty = false then " @ " else "") = "" from rfl]
      exact String.append_empty _
    have hmap : List.mapM formatLine
        [(⟨summary_, some (String.mk (isoOfDateTime dt)), none, "", "", ""⟩ : NormalizedEvent)] =
        .ok ["- " ++ String.mk (strftimeTimestamp dt) ++ ": " ++ summary_] := by
      rw [List.mapM_cons, List.mapM_nil, hline]
      rfl
    have hunfold : format_events_for_prompt
        [(⟨summary_, some (String.mk (isoOfDateTime dt)), none, "", "", ""⟩ : NormalizedEvent)] =
        match List.mapM formatLine
          [(⟨summary_, some (String.mk (isoOfDateTime dt)), none, "", "", ""⟩ : NormalizedEvent)] with
        | .ok lines => .ok (String.intercalate "\n" lines)
        | .error e => .error e := rfl
    rw [hunfold, hmap]
    rfl

/-- Witness for C7 at 2025-01-03T14:30:00. -/
theorem C7_roundtrip_witness :
    ∃ ds, renderDateStr (isoOfDateTime ⟨2025, 1, 3, 14, 30, 0⟩) = .ok ds ∧
      strptimeDateParse ds = some ⟨zellerWeekday 2025 1 3 % 7, 1, 3, 14, 30⟩ ∧
      (∀ summary_, format_events_for_prompt
          [⟨summary_, some (String.mk (isoOfDateTime ⟨2025, 1, 3, 14, 30, 0⟩)), none, "", "", ""⟩] =
        .ok ("- " ++ String.mk ds ++ ": " ++ summary_)) :=
  C7_roundtrip ⟨2025, 1, 3, 14, 30, 0⟩ (by decide) (by decide) (by decide) (by decide)
    (by decide) (by decide) (by decide) (by decide)
